import Mathlib

/-!
Shallow embedding of `solar_flare_monitor.py` (Solar Flare Multi-Agent
Monitoring System): the data model (`SolarFlare`, `AgentContext`), the four
agent stages and the orchestrator `run_cycle`, with theorems checking the
specification's claims about them.

External effects (network fetch, AI reply, web search, channel delivery,
wall-clock time) are passed in as explicit parameters: `none` / `false`
models the exception or absence that the corresponding Python `try/except`
or key check absorbs.
-/

namespace SolarFlareMonitor

/-- Python `s.startswith(c)` for a single-character prefix `c`:
true iff the first character of `s` is `c`. -/
def headIs (s : String) (c : Char) : Bool :=
  s.data.head? == some c

/-- `SolarFlare` dataclass. `flare_id` is `Option String` because the code
passes `flare_data.get('flrID')` through unchecked, which may be `None`. -/
structure SolarFlare where
  flare_id : Option String
  class_type : String
  source_location : String
  begin_time : String
  peak_time : String
  end_time : String
  linked_events : List String
  active_region_num : Option String
deriving Repr, DecidableEq

/-- `SolarFlare.severity_level`: 3 = X-class, 2 = M-class, 1 = C-class, 0 = other. -/
def SolarFlare.severity_level (f : SolarFlare) : Nat :=
  if headIs f.class_type 'X' then 3
  else if headIs f.class_type 'M' then 2
  else if headIs f.class_type 'C' then 1
  else 0

/-- One raw record of the NASA DONKI feed, with the fields the code reads via
`.get`; absent keys are `none`.  A linked event contributes its optional
`activityID`. -/
structure FlareData where
  flrID : Option String := none
  classType : Option String := none
  sourceLocation : Option String := none
  beginTime : Option String := none
  peakTime : Option String := none
  endTime : Option String := none
  linkedEvents : List (Option String) := []
  activeRegionNum : Option String := none
deriving Repr, DecidableEq

/-- Construction of the `SolarFlare` object inside `_detect_new_flares`. -/
def parseFlare (fd : FlareData) : SolarFlare :=
  { flare_id := fd.flrID
    class_type := fd.classType.getD ""
    source_location := fd.sourceLocation.getD "Unknown"
    begin_time := fd.beginTime.getD ""
    peak_time := fd.peakTime.getD ""
    end_time := fd.endTime.getD ""
    linked_events := fd.linkedEvents.map (fun e => e.getD "")
    active_region_num := fd.activeRegionNum }

/-- The significance filter of `_detect_new_flares`:
`class_type.startswith('M') or class_type.startswith('X')`. -/
def significantCode (ct : String) : Bool :=
  headIs ct 'M' || headIs ct 'X'

/-- Mutable state of `Agent1Monitor`: the seen-set (a duplicate-free list
standing for the Python `set`) and the last-check timestamp (abstract tick). -/
structure MonitorState where
  seen_flares : List (Option String)
  last_check_time : Option Nat
deriving Repr, DecidableEq

/-- Body of the loop of `_detect_new_flares` for one feed record: skip if the
identifier was seen; otherwise, if the classification is significant, emit the
parsed flare and add the identifier to the seen-set. -/
def detectStep (st : List (Option String) × List SolarFlare) (fd : FlareData) :
    List (Option String) × List SolarFlare :=
  if fd.flrID ∈ st.1 then st
  else if significantCode (fd.classType.getD "") then
    (fd.flrID :: st.1, st.2 ++ [parseFlare fd])
  else st

/-- `Agent1Monitor._detect_new_flares`: fold the loop body over the feed and
update `last_check_time` unconditionally at the end. -/
def detectNewFlares (st : MonitorState) (feed : List FlareData) (now : Nat) :
    MonitorState × List SolarFlare :=
  let r := feed.foldl detectStep (st.seen_flares, [])
  (⟨r.1, some now⟩, r.2)

/-- `AgentContext` dataclass: the pipeline carrier. -/
structure SearchResults where
  organic : List String := []
  query : String := ""
deriving Repr, DecidableEq

structure SeverityAssessment where
  level : String
  icon : String
  description : String
deriving Repr, DecidableEq

structure AnalysisData where
  search_results : SearchResults
  gemini_analysis : String
  severity_assessment : SeverityAssessment
  potential_impacts : List String
  affected_regions : List String
  timestamp : String
deriving Repr, DecidableEq

structure AgentContext where
  flare : SolarFlare
  analysis_data : Option AnalysisData := none
  report : Option String := none
  notification_results : Option (List (String × Bool)) := none
  timestamp : String := ""
deriving Repr, DecidableEq

/-- `Agent1Monitor._fetch_recent_flares`: the network outcome is a parameter;
`none` models the `requests` exception, which the `except` branch turns into `[]`. -/
def fetchRecentFlares (fetchOutcome : Option (List FlareData)) : List FlareData :=
  fetchOutcome.getD []

/-- `Agent1Monitor.execute`: fetch, detect, wrap each new flare in a fresh
context stamped with the current time. -/
def monitorExecute (st : MonitorState) (fetchOutcome : Option (List FlareData))
    (now : Nat) (nowStr : String) : MonitorState × List AgentContext :=
  let flares_data := fetchRecentFlares fetchOutcome
  let r := detectNewFlares st flares_data now
  (r.1, r.2.map (fun f => { flare := f, timestamp := nowStr }))

/-- `_search_flare_context`: with no search key (or on a failed call, modelled
by `searchReply = none`) the fallback `{'organic': [], 'query': query}` is
returned. -/
def searchFlareContext (serper_api_key : Option String)
    (searchReply : Option SearchResults) (f : SolarFlare) : SearchResults :=
  let query := "solar flare " ++ f.class_type ++ " " ++ f.peak_time.take 10
  match serper_api_key with
  | none => { organic := [], query := query }
  | some _ =>
    match searchReply with
    | some r => r
    | none => { organic := [], query := query }

/-- `_fallback_analysis`: deterministic analysis sentence used when Gemini is
unavailable. -/
def fallbackAnalysis (f : SolarFlare) : String :=
  let severity := if headIs f.class_type 'X' then "severe" else "moderate"
  "A " ++ f.class_type ++ " class solar flare represents " ++ severity ++
    " space weather activity with potential impacts on radio communications and satellite operations."

/-- `_analyze_with_gemini`: without an API key the deterministic fallback is
used; with a key the network reply (a parameter, `""` on call failure) is
returned. -/
def analyzeWithGemini (gemini_api_key : Option String) (geminiReply : String)
    (f : SolarFlare) : String :=
  match gemini_api_key with
  | none => fallbackAnalysis f
  | some _ => geminiReply

/-- `_assess_severity`: `severity_map.get(level, INFO-default)` written as an
if-chain over the three keys of the dict. -/
def assessSeverity (f : SolarFlare) : SeverityAssessment :=
  let level := f.severity_level
  if level = 3 then ⟨"SEVERE", "🔴", "Major event"⟩
  else if level = 2 then ⟨"MODERATE", "🟠", "Significant event"⟩
  else if level = 1 then ⟨"MINOR", "🟡", "Minor event"⟩
  else ⟨"INFO", "⚪", "Informational"⟩

def xImpacts : List String :=
  ["High risk of widespread radio blackouts",
   "Potential GPS and navigation disruptions",
   "Possible power grid fluctuations at high latitudes",
   "Elevated radiation risk for polar flight routes"]

def mImpacts : List String :=
  ["Moderate radio interference on sunlit side",
   "Minor satellite operation disruptions",
   "Limited impact on high-frequency communications",
   "Possible auroral activity at high latitudes"]

/-- `_determine_impacts`: `impacts.get(class_letter, default)` keyed by the
leading letter (`'C'` when the classification is empty). -/
def determineImpacts (f : SolarFlare) : List String :=
  let class_letter := if f.class_type.isEmpty then "C" else f.class_type.take 1
  if class_letter = "X" then xImpacts
  else if class_letter = "M" then mImpacts
  else ["Minimal impact expected"]

/-- Digits of an unsigned decimal read as a natural number. -/
def natOfDigits (l : List Char) : Nat :=
  l.foldl (fun n c => n * 10 + (c.toNat - 48)) 0

/-- Split a character list at the first `'.'`: whole part, and the fractional
part when a dot is present. -/
def splitOnDot : List Char → List Char × Option (List Char)
  | [] => ([], none)
  | c :: rest =>
    if c = '.' then ([], some rest)
    else
      let r := splitOnDot rest
      (c :: r.1, r.2)

/-- Python `float(s)` as used on classification-code magnitudes, modelled for
unsigned decimals (`"1"`, `"1.5"`, `".5"`, `"3."`); `none` models the
`ValueError` the caller catches (empty string, second dot, non-digit text). -/
def pyFloat (s : String) : Option ℚ :=
  let p := splitOnDot s.data
  match p.2 with
  | none =>
    if p.1.isEmpty || !(p.1.all Char.isDigit) then none
    else some (natOfDigits p.1 : ℚ)
  | some fr =>
    if (p.1.isEmpty && fr.isEmpty) || !(p.1.all Char.isDigit) || !(fr.all Char.isDigit) then
      none
    else some ((natOfDigits p.1 : ℚ) + (natOfDigits fr : ℚ) / (10 : ℚ) ^ fr.length)

def globalRegions : List String :=
  ["Global (all longitudes)",
   "Particularly: High-latitude regions",
   "Polar flight routes",
   "HF radio communication zones"]

def sunlitRegions : List String :=
  ["Sunlit hemisphere at time of peak",
   "High-frequency radio users",
   "Satellite operators"]

/-- `_determine_regions`: parse the magnitude after the class letter
(defaulting to 1.0 when `float` raises) and escalate to global scope for
X-class or magnitude at least 5.0. -/
def determineRegions (f : SolarFlare) : List String :=
  let class_magnitude := (pyFloat (f.class_type.drop 1)).getD 1
  if headIs f.class_type 'X' || class_magnitude ≥ 5 then globalRegions
  else sunlitRegions

/-- `Agent2Analyst.execute`: enrich the context with the analysis mapping;
returns the same context with `analysis_data` populated. -/
def analystExecute (gemini_api_key serper_api_key : Option String)
    (geminiReply : String) (searchReply : Option SearchResults)
    (nowStr : String) (ctx : AgentContext) : AgentContext :=
  let search_results := searchFlareContext serper_api_key searchReply ctx.flare
  let gemini_analysis := analyzeWithGemini gemini_api_key geminiReply ctx.flare
  { ctx with
    analysis_data := some
      { search_results := search_results
        gemini_analysis := gemini_analysis
        severity_assessment := assessSeverity ctx.flare
        potential_impacts := determineImpacts ctx.flare
        affected_regions := determineRegions ctx.flare
        timestamp := nowStr } }

/-- `'='*70`. -/
def eqLine : String := String.mk (List.replicate 70 '=')

/-- `'━'*70` separator used inside the template report. -/
def heavyLine : String := String.mk (List.replicate 70 '━')

/-- Python `f-string` rendering of a possibly-`None` value. -/
def pyStr (o : Option String) : String :=
  match o with
  | some s => s
  | none => "None"

/-- Python `x or default` on an optional string (truthiness: `None` and `""`
both yield the default). -/
def orDefault (o : Option String) (d : String) : String :=
  match o with
  | some s => if s.isEmpty then d else s
  | none => d

/-- `Agent3ReportWriter._generate_template_report`.  `fmtTime` stands for
`_format_time` (datetime parsing is external; the code falls back to the raw
string on parse failure, so it is total), `nowStr` for the generation
timestamp. -/
def generateTemplateReport (fmtTime : String → String) (nowStr : String)
    (ctx : AgentContext) : String :=
  let flare := ctx.flare
  let level := match ctx.analysis_data with
    | some a => a.severity_assessment.level
    | none => "INFO"
  let icon := match ctx.analysis_data with
    | some a => a.severity_assessment.icon
    | none => "⚪"
  let analysisText := match ctx.analysis_data with
    | some a => a.gemini_analysis
    | none => "AI analysis unavailable - using standard assessment"
  let impacts := match ctx.analysis_data with
    | some a => a.potential_impacts
    | none => ["Impact assessment pending"]
  let regions := match ctx.analysis_data with
    | some a => a.affected_regions
    | none => ["Global assessment pending"]
  let bullet := fun (s : String) => "  • " ++ s ++ "\n"
  "\n" ++ eqLine ++ "\n" ++
  icon ++ " SOLAR FLARE ALERT - " ++ level ++ " " ++ icon ++ "\n" ++
  eqLine ++ "\n\n" ++
  "FLARE CLASSIFICATION: " ++ flare.class_type ++ "\n" ++
  "EVENT ID: " ++ pyStr flare.flare_id ++ "\n" ++
  "SEVERITY: " ++ level ++ "\n\n" ++
  heavyLine ++ "\n\n" ++
  "TIMING INFORMATION:\n" ++
  "  • Begin Time:  " ++ fmtTime flare.begin_time ++ "\n" ++
  "  • Peak Time:   " ++ fmtTime flare.peak_time ++ "\n" ++
  "  • End Time:    " ++ fmtTime flare.end_time ++ "\n\n" ++
  "SOURCE INFORMATION:\n" ++
  "  • Location: " ++ flare.source_location ++ "\n" ++
  "  • Active Region: " ++ orDefault flare.active_region_num "Not specified" ++ "\n\n" ++
  heavyLine ++ "\n\n" ++
  "ANALYSIS:\n" ++ analysisText ++ "\n\n" ++
  heavyLine ++ "\n\n" ++
  "POTENTIAL IMPACTS:\n" ++
  String.join (impacts.map bullet) ++
  "\nAFFECTED REGIONS:\n" ++
  String.join (regions.map bullet) ++
  (if flare.linked_events.isEmpty then ""
   else "\nLINKED EVENTS: " ++ toString flare.linked_events.length ++
        " associated space weather event(s)\n") ++
  "\n" ++ heavyLine ++ "\n\n" ++
  "RECOMMENDATIONS:\n" ++
  "  • Monitor space weather updates from NOAA SWPC\n" ++
  "  • Review communication backup procedures if in affected regions\n" ++
  "  • Satellite operators should verify system status\n" ++
  "  • Aircraft on polar routes should stay informed\n\n" ++
  "REPORT METADATA:\n" ++
  "  • Generated: " ++ nowStr ++ "\n" ++
  "  • Source: NASA DONKI API\n" ++
  "  • Event ID: " ++ pyStr flare.flare_id ++ "\n\n" ++
  eqLine ++ "\n"

/-- `_generate_gemini_report`: the Gemini reply is a parameter (`""` on call
failure, in which case the template path is the fallback). -/
def generateGeminiReport (geminiReply : String) (fmtTime : String → String)
    (nowStr : String) (ctx : AgentContext) : String :=
  if geminiReply ≠ "" then
    geminiReply ++ "\n\n" ++ eqLine ++ "\nReport ID: " ++ pyStr ctx.flare.flare_id ++
      "\nGenerated: " ++ nowStr ++ "\nPowered by Gemini AI\n" ++ eqLine
  else generateTemplateReport fmtTime nowStr ctx

/-- `Agent3ReportWriter.execute`: Gemini path when a key and analysis data are
present, template path otherwise; populates `report`. -/
def writerExecute (gemini_api_key : Option String) (geminiReply : String)
    (fmtTime : String → String) (nowStr : String) (ctx : AgentContext) : AgentContext :=
  let report :=
    if gemini_api_key.isSome && ctx.analysis_data.isSome then
      generateGeminiReport geminiReply fmtTime nowStr ctx
    else generateTemplateReport fmtTime nowStr ctx
  { ctx with report := some report }

structure EmailConfig where
  sender : String
  recipient : String
  smtp_server : String
  smtp_port : Nat
deriving Repr, DecidableEq

/-- `Agent4Notifier.execute`: each channel helper catches its own exceptions
and returns a success Boolean, passed here as parameters (`consoleOk`,
`fileOk`, `emailOk`).  The guard `if not context.report` makes the stage a
no-op both when the report is absent and when it is the empty string (Python
truthiness); the email channel is attempted only when a configuration is
present. -/
def notifierExecute (consoleOk fileOk : Bool) (email_config : Option EmailConfig)
    (emailOk : Bool) (ctx : AgentContext) : AgentContext :=
  match ctx.report with
  | none => ctx
  | some rep =>
    if rep.isEmpty then ctx
    else
      let results := [("console", consoleOk), ("file", fileOk)] ++
        (match email_config with
         | some _ => [("email", emailOk)]
         | none => [])
      { ctx with notification_results := some results }

/-- One entry of the orchestrator's `execution_log`. -/
structure LogEntry where
  timestamp : String
  flare_id : Option String
  class_type : String
  notifications : Option (List (String × Bool))
deriving Repr, DecidableEq

def mkLogEntry (c : AgentContext) : LogEntry :=
  ⟨c.timestamp, c.flare.flare_id, c.flare.class_type, c.notification_results⟩

/-- A pipeline stage as the orchestrator sees it: it either returns an updated
context or raises (`Except.error`), the possibility `run_cycle`'s outer
`try/except` guards against. -/
abbrev Stage := AgentContext → Except String AgentContext

/-- One iteration body of `run_cycle`'s loop: Analysis, then Report, then
Distribution on the same context, an exception in any stage propagating. -/
def processOne (analyst writer notifier : Stage) (c : AgentContext) :
    Except String AgentContext := do
  let c1 ← analyst c
  let c2 ← writer c1
  notifier c2

/-- The `for` loop inside `run_cycle`'s `try`: run the three stages on each
context and append a log entry; a raise anywhere stops the loop with the log
entries accumulated so far and `false` (control transfers to `except`). -/
def processContexts (analyst writer notifier : Stage) :
    List LogEntry → List AgentContext → List LogEntry × Bool
  | log, [] => (log, true)
  | log, c :: rest =>
    match processOne analyst writer notifier c with
    | .error _ => (log, false)
    | .ok c3 =>
      processContexts analyst writer notifier (log ++ [mkLogEntry c3]) rest

/-- `SolarFlareMonitoringSystem.run_cycle` after the monitor has produced
`contexts`: return 0 on an empty detection; otherwise run the loop, returning
`len(contexts)` when every stage succeeded and 0 when the `except` branch
caught a stage exception.  Returns the updated execution log and the count. -/
def runCycle (analyst writer notifier : Stage) (log : List LogEntry)
    (contexts : List AgentContext) : List LogEntry × Nat :=
  if contexts.isEmpty then (log, 0)
  else
    match processContexts analyst writer notifier log contexts with
    | (log2, true) => (log2, contexts.length)
    | (log2, false) => (log2, 0)

/-- `Agent2Analyst.execute` with no optional capabilities, as a total stage. -/
def analystStageNoCap (nowStr : String) : Stage :=
  fun c => .ok (analystExecute none none "" none nowStr c)

/-- `Agent3ReportWriter.execute` with no Gemini key, as a total stage. -/
def writerStageNoCap (fmtTime : String → String) (nowStr : String) : Stage :=
  fun c => .ok (writerExecute none "" fmtTime nowStr c)

/-- `Agent4Notifier.execute` with no email configuration, as a total stage. -/
def notifierStageNoEmail (consoleOk fileOk : Bool) : Stage :=
  fun c => .ok (notifierExecute consoleOk fileOk none true c)

/-- One full `run_cycle` of `SolarFlareMonitoringSystem` with no optional
capabilities: monitor execute feeding the three downstream stages.  Returns
the new monitor state, the new execution log and the processed count. -/
def systemRunCycle (st : MonitorState) (fetchOutcome : Option (List FlareData))
    (now : Nat) (nowStr : String) (fmtTime : String → String)
    (consoleOk fileOk : Bool) (log : List LogEntry) :
    MonitorState × List LogEntry × Nat :=
  ((monitorExecute st fetchOutcome now nowStr).1,
   runCycle (analystStageNoCap nowStr) (writerStageNoCap fmtTime nowStr)
     (notifierStageNoEmail consoleOk fileOk) log
     (monitorExecute st fetchOutcome now nowStr).2)

/-- Number of failed channels in a distribution outcome map. -/
def countFalse (l : List (String × Bool)) : Nat :=
  (l.filter (fun p => !p.2)).length

/-- Concrete feed records for witnesses and counterexamples. -/
def fdM1 : FlareData := { flrID := some "FLR-M1", classType := some "M1.5" }

def fdM2 : FlareData := { flrID := some "FLR-M2", classType := some "M2.0" }

def fdC1 : FlareData := { flrID := some "FLR-C1", classType := some "C3.0" }

def fdW3 : FlareData := { flrID := some "W3", classType := some "M1.0" }

/-- A concrete event record. -/
def demoFlare (id ct : String) : SolarFlare :=
  { flare_id := some id, class_type := ct, source_location := "S1W1",
    begin_time := "", peak_time := "", end_time := "", linked_events := [],
    active_region_num := none }

def demoContext (id ct : String) : AgentContext :=
  { flare := demoFlare id ct }

def ctxWithReport : AgentContext :=
  { flare := demoFlare "FLR-R" "M1.0", report := some "ALERT" }

def demoEmailConfig : EmailConfig :=
  { sender := "alerts@example.com", recipient := "team@example.com",
    smtp_server := "smtp.example.com", smtp_port := 587 }

/-- A stage that succeeds without touching the context. -/
def okStage : Stage := fun c => .ok c

/-- A stage that raises exactly on the context whose event identifier is
`"F2"`. -/
def analystFailsOnSecond : Stage :=
  fun c => if c.flare.flare_id = some "F2" then .error "analysis exception" else .ok c

def cts3 : List AgentContext :=
  [demoContext "F1" "M1.0", demoContext "F2" "M2.0", demoContext "F3" "M3.0"]

theorem headIs_elim {s : String} {a b : Char} (h : headIs s a = true) (hab : a ≠ b) :
    headIs s b = false := by
  unfold headIs at h ⊢
  cases hh : s.data.head? with
  | none => simp [hh] at h
  | some c =>
    rw [hh] at h
    simp at h ⊢
    exact fun hcb => hab (h.symm.trans hcb)

theorem significantCode_iff (ct : String) :
    significantCode ct = true ↔
      ct.data.head? = some 'M' ∨ ct.data.head? = some 'X' := by
  unfold significantCode headIs
  simp [Bool.or_eq_true]

/-- Claim C5 (confirmed): `severity_level` depends only on the leading letter
of the classification code, with values X = 3, M = 2, C = 1, anything else 0,
so severity is strictly increasing in the order C < M < X. -/
theorem severity_level_by_leading_letter (f : SolarFlare) :
    (headIs f.class_type 'X' = true → f.severity_level = 3) ∧
    (headIs f.class_type 'M' = true → f.severity_level = 2) ∧
    (headIs f.class_type 'C' = true → f.severity_level = 1) ∧
    (headIs f.class_type 'X' = false → headIs f.class_type 'M' = false →
      headIs f.class_type 'C' = false → f.severity_level = 0) := by
  refine ⟨?_, ?_, ?_, ?_⟩
  · intro h; simp [SolarFlare.severity_level, h]
  · intro h
    have hx := headIs_elim h (by decide : 'M' ≠ 'X')
    simp [SolarFlare.severity_level, h, hx]
  · intro h
    have hx := headIs_elim h (by decide : 'C' ≠ 'X')
    have hm := headIs_elim h (by decide : 'C' ≠ 'M')
    simp [SolarFlare.severity_level, h, hx, hm]
  · intro hx hm hc
    simp [SolarFlare.severity_level, hx, hm, hc]

theorem severity_level_by_leading_letter_witness :
    headIs (demoFlare "FW" "X2.2").class_type 'X' = true ∧
    (demoFlare "FW" "X2.2").severity_level = 3 :=
  ⟨by decide, (severity_level_by_leading_letter (demoFlare "FW" "X2.2")).1 (by decide)⟩

/-- Claim C9 (confirmed): on fetch failure the monitor's detect call returns
an empty context sequence without propagating an exception (the function is
total), leaves the seen-set unchanged, and still updates the last-check
timestamp at the end of the call. -/
theorem fetch_failure_soft (st : MonitorState) (now : Nat) (nowStr : String) :
    monitorExecute st none now nowStr =
      ({ seen_flares := st.seen_flares, last_check_time := some now }, []) := rfl

/-- Claim C8 (confirmed): a classification code with no numeric suffix does
not make affected-region determination raise (the function is total): the
magnitude defaults to 1.0 and the global branch is then taken iff the leading
letter is 'X'. -/
theorem magnitude_parse_fallback (f : SolarFlare) (h : f.class_type.drop 1 = "") :
    (pyFloat (f.class_type.drop 1)).getD 1 = 1 ∧
    (determineRegions f = globalRegions ↔ headIs f.class_type 'X' = true) := by
  have hp : pyFloat "" = none := rfl
  constructor
  · rw [h, hp]; rfl
  · unfold determineRegions
    rw [h, hp]
    have h5 : ¬((1 : ℚ) ≥ 5) := by norm_num
    cases hx : headIs f.class_type 'X' with
    | true => simp [hx]
    | false =>
      simp only [hx, Bool.false_or, Option.getD_none]
      rw [if_neg (by simp)]
      simp only [Bool.false_eq_true, iff_false]
      decide

theorem magnitude_parse_fallback_witness :
    (demoFlare "FX" "X").class_type.drop 1 = "" ∧
    ((pyFloat ((demoFlare "FX" "X").class_type.drop 1)).getD 1 = 1 ∧
     (determineRegions (demoFlare "FX" "X") = globalRegions ↔
       headIs (demoFlare "FX" "X").class_type 'X' = true)) :=
  ⟨by decide, magnitude_parse_fallback (demoFlare "FX" "X") (by decide)⟩

/-- Claim C3 (confirmed): for an unseen record, the monitor emits a context
iff the classification code's leading letter is 'M' or 'X'; codes starting
with any other letter (or an absent/empty code) are never emitted. -/
theorem monitor_emits_iff (st : MonitorState) (fd : FlareData) (now : Nat)
    (h : fd.flrID ∉ st.seen_flares) :
    (detectNewFlares st [fd] now).2 ≠ [] ↔
      ((fd.classType.getD "").data.head? = some 'M' ∨
       (fd.classType.getD "").data.head? = some 'X') := by
  rw [← significantCode_iff]
  unfold detectNewFlares
  simp only [List.foldl_cons, List.foldl_nil]
  unfold detectStep
  rw [if_neg h]
  by_cases hs : significantCode (fd.classType.getD "") = true
  · rw [if_pos hs]
    constructor
    · intro _; exact hs
    · intro _; simp
  · rw [if_neg hs]
    constructor
    · intro hne; exact absurd rfl hne
    · intro hsig; exact absurd hsig hs

theorem monitor_emits_iff_witness :
    (fdW3.flrID ∉ (⟨[], none⟩ : MonitorState).seen_flares) ∧
    ((detectNewFlares ⟨[], none⟩ [fdW3] 0).2 ≠ [] ↔
      ((fdW3.classType.getD "").data.head? = some 'M' ∨
       (fdW3.classType.getD "").data.head? = some 'X')) :=
  ⟨by decide, monitor_emits_iff ⟨[], none⟩ fdW3 0 (by decide)⟩

/-- Claim C7 (confirmed): with a report present (a non-empty report string —
the code's `if not context.report` guard treats an empty string like an
absent report and does nothing) the distribution stage attempts every
enabled channel independently and records one Boolean per channel; when
exactly one of the three channels fails, the outcome map holds all three
attempted channels and exactly one `false` entry. -/
theorem per_channel_isolation (ctx : AgentContext) (rep : String)
    (cfg : EmailConfig) (b1 b2 b3 : Bool)
    (hrep : ctx.report = some rep) (hne : rep ≠ "")
    (hone : (cond b1 0 1) + (cond b2 0 1) + (cond b3 0 1) = 1) :
    (notifierExecute b1 b2 (some cfg) b3 ctx).notification_results =
      some [("console", b1), ("file", b2), ("email", b3)] ∧
    countFalse [("console", b1), ("file", b2), ("email", b3)] = 1 ∧
    ([("console", b1), ("file", b2), ("email", b3)] : List (String × Bool)).length = 3 := by
  have hempty : rep.isEmpty = false := by
    cases hi : rep.isEmpty
    · rfl
    · exact absurd ((String.isEmpty_iff rep).mp hi) hne
  refine ⟨?_, ?_, rfl⟩
  · simp [notifierExecute, hrep, hempty]
  · revert hone
    cases b1 <;> cases b2 <;> cases b3 <;> decide

theorem per_channel_isolation_witness :
    ctxWithReport.report = some "ALERT" ∧
    ("ALERT" : String) ≠ "" ∧
    ((cond false 0 1) + (cond true 0 1) + (cond true 0 1) = 1) ∧
    ((notifierExecute false true (some demoEmailConfig) true ctxWithReport).notification_results =
       some [("console", false), ("file", true), ("email", true)] ∧
     countFalse [("console", false), ("file", true), ("email", true)] = 1 ∧
     ([("console", false), ("file", true), ("email", true)] : List (String × Bool)).length = 3) :=
  ⟨rfl, by decide, by decide,
    per_channel_isolation ctxWithReport "ALERT" demoEmailConfig false true true rfl
      (by decide) (by decide)⟩

theorem detect_fold_spec (feed : List FlareData) :
    ∀ (seen : List (Option String)) (acc : List SolarFlare),
      (∀ id, id ∈ seen → id ∈ (feed.foldl detectStep (seen, acc)).1) ∧
      (∀ f, f ∈ (feed.foldl detectStep (seen, acc)).2 →
        f ∈ acc ∨ (f.flare_id ∈ (feed.foldl detectStep (seen, acc)).1 ∧ f.flare_id ∉ seen)) ∧
      (∀ id, id ∈ (feed.foldl detectStep (seen, acc)).1 →
        id ∈ seen ∨ ∃ fd, fd ∈ feed ∧ fd.flrID = id ∧
          significantCode (fd.classType.getD "") = true) := by
  induction feed with
  | nil =>
    intro seen acc
    exact ⟨fun id h => h, fun f hf => Or.inl hf, fun id h => Or.inl h⟩
  | cons fd rest ih =>
    intro seen acc
    simp only [List.foldl_cons]
    by_cases h1 : fd.flrID ∈ seen
    · rw [show detectStep (seen, acc) fd = (seen, acc) from by
        unfold detectStep; rw [if_pos h1]]
      obtain ⟨m1, m2, m3⟩ := ih seen acc
      refine ⟨m1, m2, fun id hid => ?_⟩
      rcases m3 id hid with h | ⟨fd', hf, he, hs⟩
      · exact Or.inl h
      · exact Or.inr ⟨fd', List.mem_cons_of_mem _ hf, he, hs⟩
    · by_cases h2 : significantCode (fd.classType.getD "") = true
      · rw [show detectStep (seen, acc) fd = (fd.flrID :: seen, acc ++ [parseFlare fd]) from by
          unfold detectStep; rw [if_neg h1, if_pos h2]]
        obtain ⟨m1, m2, m3⟩ := ih (fd.flrID :: seen) (acc ++ [parseFlare fd])
        refine ⟨?_, ?_, ?_⟩
        · intro id hid
          exact m1 id (List.mem_cons_of_mem _ hid)
        · intro f hf
          rcases m2 f hf with hacc | ⟨hin, hnot⟩
          · rcases List.mem_append.mp hacc with ha | hb
            · exact Or.inl ha
            · have hf_eq : f = parseFlare fd := by simpa using hb
              refine Or.inr ⟨?_, ?_⟩
              · rw [hf_eq]
                exact m1 fd.flrID (List.mem_cons_self _ _)
              · rw [hf_eq]
                exact h1
          · exact Or.inr ⟨hin, fun hmem => hnot (List.mem_cons_of_mem _ hmem)⟩
        · intro id hid
          rcases m3 id hid with hseen | ⟨fd', hf, he, hs⟩
          · rcases List.mem_cons.mp hseen with heq | hseen2
            · exact Or.inr ⟨fd, List.mem_cons_self _ _, heq.symm, h2⟩
            · exact Or.inl hseen2
          · exact Or.inr ⟨fd', List.mem_cons_of_mem _ hf, he, hs⟩
      · rw [show detectStep (seen, acc) fd = (seen, acc) from by
          unfold detectStep; rw [if_neg h1, if_neg h2]]
        obtain ⟨m1, m2, m3⟩ := ih seen acc
        refine ⟨m1, m2, fun id hid => ?_⟩
        rcases m3 id hid with h | ⟨fd', hf, he, hs⟩
        · exact Or.inl h
        · exact Or.inr ⟨fd', List.mem_cons_of_mem _ hf, he, hs⟩

theorem detect_fold_skip (feed : List FlareData)
    (hall : ∀ fd, fd ∈ feed → significantCode (fd.classType.getD "") = false) :
    ∀ (seen : List (Option String)) (acc : List SolarFlare),
      feed.foldl detectStep (seen, acc) = (seen, acc) := by
  induction feed with
  | nil => intro seen acc; rfl
  | cons fd rest ih =>
    intro seen acc
    simp only [List.foldl_cons]
    have hstep : detectStep (seen, acc) fd = (seen, acc) := by
      unfold detectStep
      by_cases h1 : fd.flrID ∈ seen
      · rw [if_pos h1]
      · rw [if_neg h1, if_neg (by simp [hall fd (List.mem_cons_self _ _)])]
    rw [hstep]
    exact ih (fun fd' h => hall fd' (List.mem_cons_of_mem _ h)) seen acc

/-- Claim C4 (confirmed): across any detect call the seen-set only grows (an
identifier once present stays present), every emitted record's identifier is
recorded in the seen-set, and no record whose identifier was already seen is
emitted — so once a record with identifier I has been emitted, no later
detect call with I in the feed emits it again. -/
theorem detect_dedup_invariant (st : MonitorState) (feed : List FlareData) (now : Nat) :
    (∀ id, id ∈ st.seen_flares → id ∈ (detectNewFlares st feed now).1.seen_flares) ∧
    (∀ f, f ∈ (detectNewFlares st feed now).2 →
      f.flare_id ∈ (detectNewFlares st feed now).1.seen_flares ∧
      f.flare_id ∉ st.seen_flares) := by
  obtain ⟨m1, m2, _⟩ := detect_fold_spec feed st.seen_flares []
  refine ⟨m1, fun f hf => ?_⟩
  rcases m2 f hf with hacc | ⟨hin, hnot⟩
  · exact absurd hacc (List.not_mem_nil f)
  · exact ⟨hin, hnot⟩

theorem detect_dedup_invariant_witness :
    some "W4" ∈ (⟨[some "W4"], none⟩ : MonitorState).seen_flares ∧
    some "W4" ∈ (detectNewFlares ⟨[some "W4"], none⟩ [fdW3] 0).1.seen_flares :=
  ⟨by decide,
    (detect_dedup_invariant ⟨[some "W4"], none⟩ [fdW3] 0).1 (some "W4") (by decide)⟩

/-- Claim C10 (confirmed): every identifier added to the seen-set by a detect
call comes from a feed record whose classification code's leading letter is
'M' or 'X'; a feed whose records all fail the significance filter leaves the
seen-set exactly unchanged, so a filtered record is re-examined (and
re-dropped) on every later detect call. -/
theorem seen_only_significant (st : MonitorState) (feed : List FlareData) (now : Nat) :
    (∀ id, id ∈ (detectNewFlares st feed now).1.seen_flares →
      id ∈ st.seen_flares ∨
        ∃ fd, fd ∈ feed ∧ fd.flrID = id ∧
          ((fd.classType.getD "").data.head? = some 'M' ∨
           (fd.classType.getD "").data.head? = some 'X')) ∧
    ((∀ fd, fd ∈ feed → significantCode (fd.classType.getD "") = false) →
      (detectNewFlares st feed now).1.seen_flares = st.seen_flares) := by
  constructor
  · intro id hid
    rcases (detect_fold_spec feed st.seen_flares []).2.2 id hid with h | ⟨fd, hf, he, hs⟩
    · exact Or.inl h
    · exact Or.inr ⟨fd, hf, he, (significantCode_iff _).mp hs⟩
  · intro hall
    show (feed.foldl detectStep (st.seen_flares, [])).1 = st.seen_flares
    rw [detect_fold_skip feed hall st.seen_flares []]

theorem seen_only_significant_witness :
    some "FLR-M1" ∈ (detectNewFlares ⟨[], none⟩ [fdM1] 0).1.seen_flares ∧
    (some "FLR-M1" ∈ (⟨[], none⟩ : MonitorState).seen_flares ∨
      ∃ fd, fd ∈ [fdM1] ∧ fd.flrID = some "FLR-M1" ∧
        ((fd.classType.getD "").data.head? = some 'M' ∨
         (fd.classType.getD "").data.head? = some 'X')) :=
  ⟨by decide,
    (seen_only_significant ⟨[], none⟩ [fdM1] 0).1 (some "FLR-M1") (by decide)⟩

theorem processContexts_prefix (a w n : Stage) :
    ∀ (cs : List AgentContext) (log : List LogEntry),
      log <+: (processContexts a w n log cs).1 := by
  intro cs
  induction cs with
  | nil => intro log; exact List.prefix_refl _
  | cons c rest ih =>
    intro log
    simp only [processContexts]
    cases processOne a w n c with
    | error e => exact List.prefix_refl _
    | ok c3 =>
      exact (List.prefix_append log [mkLogEntry c3]).trans
        (ih (log ++ [mkLogEntry c3]))

theorem processContexts_length_le (a w n : Stage) :
    ∀ (cs : List AgentContext) (log : List LogEntry),
      (processContexts a w n log cs).1.length ≤ log.length + cs.length := by
  intro cs
  induction cs with
  | nil => intro log; simp [processContexts]
  | cons c rest ih =>
    intro log
    simp only [processContexts]
    cases processOne a w n c with
    | error e =>
      show log.length ≤ log.length + (c :: rest).length
      simp only [List.length_cons]
      omega
    | ok c3 =>
      have h := ih (log ++ [mkLogEntry c3])
      show (processContexts a w n (log ++ [mkLogEntry c3]) rest).1.length ≤
        log.length + (c :: rest).length
      simp only [List.length_append, List.length_cons, List.length_nil] at h ⊢
      omega

theorem processOne_ok (g1 g2 g3 : AgentContext → AgentContext) (c : AgentContext) :
    processOne (fun x => .ok (g1 x)) (fun x => .ok (g2 x)) (fun x => .ok (g3 x)) c =
      .ok (g3 (g2 (g1 c))) := rfl

theorem processContexts_total (g1 g2 g3 : AgentContext → AgentContext) :
    ∀ (cs : List AgentContext) (log : List LogEntry),
      processContexts (fun c => .ok (g1 c)) (fun c => .ok (g2 c))
          (fun c => .ok (g3 c)) log cs =
        (log ++ cs.map (fun c => mkLogEntry (g3 (g2 (g1 c)))), true) := by
  intro cs
  induction cs with
  | nil => intro log; simp [processContexts]
  | cons c rest ih =>
    intro log
    simp only [processContexts, processOne_ok, List.map_cons]
    rw [ih (log ++ [mkLogEntry (g3 (g2 (g1 c)))])]
    simp

theorem runCycle_total_stages (g1 g2 g3 : AgentContext → AgentContext)
    (log : List LogEntry) (cs : List AgentContext) :
    runCycle (fun c => .ok (g1 c)) (fun c => .ok (g2 c)) (fun c => .ok (g3 c)) log cs =
      if cs.isEmpty then (log, 0)
      else (log ++ cs.map (fun c => mkLogEntry (g3 (g2 (g1 c)))), cs.length) := by
  unfold runCycle
  by_cases he : cs.isEmpty = true
  · rw [if_pos he, if_pos he]
  · rw [if_neg he, if_neg he]
    rw [processContexts_total]

/-- Claim C1 (counterexample): with three M-class contexts and an analysis
stage that raises on the second one, `run_cycle` returns 0 — not the 2 events
that the claim says would be counted — and the execution log gains only the
one entry recorded before the exception: the third context is never
processed. -/
theorem run_cycle_abort_counterexample :
    (runCycle analystFailsOnSecond okStage okStage [] cts3).2 = 0 ∧
    (runCycle analystFailsOnSecond okStage okStage [] cts3).1.length = 1 ∧
    ¬((runCycle analystFailsOnSecond okStage okStage [] cts3).2 = 2) := by
  decide

/-- Claim C1 (corrected): `run_cycle` never raises — it is a total function
whose outer boundary absorbs any stage exception — but a stage exception
aborts the remaining contexts of the cycle: the call then returns 0, not the
number of events that succeeded, keeping exactly the log entries appended
before the failure.  The returned count is always either 0 or the full
context count, and the execution log is only ever extended, by at most one
entry per context. -/
theorem run_cycle_outer_boundary (a w n : Stage) (log : List LogEntry)
    (cs : List AgentContext) :
    ((runCycle a w n log cs).2 = cs.length ∨ (runCycle a w n log cs).2 = 0) ∧
    ((processContexts a w n log cs).2 = false →
      runCycle a w n log cs = ((processContexts a w n log cs).1, 0)) ∧
    log <+: (runCycle a w n log cs).1 ∧
    (runCycle a w n log cs).1.length ≤ log.length + cs.length := by
  have hpre := processContexts_prefix a w n cs log
  have hlen := processContexts_length_le a w n cs log
  unfold runCycle
  by_cases he : cs.isEmpty = true
  · rw [if_pos he]
    have hnil : cs = [] := by
      cases cs with
      | nil => rfl
      | cons x xs => exact absurd he (by simp)
    subst hnil
    refine ⟨Or.inr rfl, ?_, List.prefix_refl _, by simp⟩
    intro hfalse
    simp [processContexts] at hfalse
  · rw [if_neg he]
    cases hp : processContexts a w n log cs with
    | mk l2 b =>
      rw [hp] at hpre hlen
      cases b with
      | true =>
        refine ⟨Or.inl rfl, ?_, hpre, hlen⟩
        intro hfalse
        simp at hfalse
      | false =>
        exact ⟨Or.inr rfl, fun _ => rfl, hpre, hlen⟩

theorem run_cycle_outer_boundary_witness :
    (processContexts analystFailsOnSecond okStage okStage [] cts3).2 = false ∧
    runCycle analystFailsOnSecond okStage okStage [] cts3 =
      ((processContexts analystFailsOnSecond okStage okStage [] cts3).1, 0) :=
  ⟨by decide,
    (run_cycle_outer_boundary analystFailsOnSecond okStage okStage [] cts3).2.1 (by decide)⟩

theorem fallback_analysis_ne_empty (f : SolarFlare) : fallbackAnalysis f ≠ "" := by
  intro h
  have hl := congrArg String.length h
  unfold fallbackAnalysis at hl
  simp only [String.length_append] at hl
  have h1 : 0 < ("A " : String).length := by decide
  have h0 : ("" : String).length = 0 := rfl
  omega

theorem template_report_ne_empty (fmtTime : String → String) (nowStr : String)
    (ctx : AgentContext) : generateTemplateReport fmtTime nowStr ctx ≠ "" := by
  intro h
  have hl := congrArg String.length h
  unfold generateTemplateReport at hl
  simp only [String.length_append] at hl
  have h1 : 0 < ("\n" : String).length := by decide
  have h0 : ("" : String).length = 0 := rfl
  omega

theorem assessSeverity_level_ne_empty (f : SolarFlare) :
    (assessSeverity f).level ≠ "" := by
  simp only [assessSeverity]
  repeat' split
  all_goals decide

theorem determineImpacts_ne_nil (f : SolarFlare) : determineImpacts f ≠ [] := by
  simp only [determineImpacts]
  repeat' split
  all_goals decide

theorem determineRegions_ne_nil (f : SolarFlare) : determineRegions f ≠ [] := by
  simp only [determineRegions]
  split <;> decide

/-- Claim C6 (confirmed): with no AI key and no search key, the analysis
stage returns the same context (same event record) enriched with a fully
populated analysis result — non-empty narrative, non-empty severity label,
non-empty impact list and non-empty region list — and the report stage then
populates non-empty report text.  Both stage functions are total: neither
raises for any event record. -/
theorem fallback_totality (ctx : AgentContext) (nowStr : String)
    (fmtTime : String → String) (geminiReply : String)
    (searchReply : Option SearchResults) :
    (analystExecute none none geminiReply searchReply nowStr ctx).flare = ctx.flare ∧
    (∃ a, (analystExecute none none geminiReply searchReply nowStr ctx).analysis_data =
        some a ∧
      a.gemini_analysis ≠ "" ∧
      a.severity_assessment.level ≠ "" ∧
      a.potential_impacts ≠ [] ∧
      a.affected_regions ≠ []) ∧
    (∃ rep, (writerExecute none geminiReply fmtTime nowStr
        (analystExecute none none geminiReply searchReply nowStr ctx)).report =
          some rep ∧
      rep ≠ "") := by
  refine ⟨rfl, ⟨_, rfl, ?_, ?_, ?_, ?_⟩, ⟨_, rfl, ?_⟩⟩
  · exact fallback_analysis_ne_empty ctx.flare
  · exact assessSeverity_level_ne_empty ctx.flare
  · exact determineImpacts_ne_nil ctx.flare
  · exact determineRegions_ne_nil ctx.flare
  · show generateTemplateReport fmtTime nowStr
      (analystExecute none none geminiReply searchReply nowStr ctx) ≠ ""
    exact template_report_ne_empty fmtTime nowStr _

theorem systemRunCycle_eval (st : MonitorState) (fetch : Option (List FlareData))
    (now : Nat) (nowStr : String) (fmtTime : String → String)
    (consoleOk fileOk : Bool) (log : List LogEntry) :
    systemRunCycle st fetch now nowStr fmtTime consoleOk fileOk log =
      ((monitorExecute st fetch now nowStr).1,
       if (monitorExecute st fetch now nowStr).2.isEmpty then (log, 0)
       else (log ++ (monitorExecute st fetch now nowStr).2.map
           (fun c => mkLogEntry (notifierExecute consoleOk fileOk none true
             (writerExecute none "" fmtTime nowStr
               (analystExecute none none "" none nowStr c)))),
         (monitorExecute st fetch now nowStr).2.length)) := by
  unfold systemRunCycle analystStageNoCap writerStageNoCap notifierStageNoEmail
  rw [runCycle_total_stages]

/-- Claim C2 (counterexample): with a fresh monitor and a feed of two unseen
M-class records and one unseen C-class record, the seen-set gains exactly 2
identifiers, not the claimed 3: the filtered C-class identifier is not added
to the seen-set. -/
theorem cycle_example_counterexample :
    (detectNewFlares ⟨[], none⟩ [fdM1, fdM2, fdC1] 0).1.seen_flares.length = 2 ∧
    some "FLR-C1" ∉ (detectNewFlares ⟨[], none⟩ [fdM1, fdM2, fdC1] 0).1.seen_flares ∧
    ¬((detectNewFlares ⟨[], none⟩ [fdM1, fdM2, fdC1] 0).1.seen_flares.length = 3) := by
  decide

/-- Claim C2 (corrected): when the feed returns exactly two unseen M-class
records and one unseen C-class record, `run_cycle` returns 2, the execution
log gains exactly 2 entries, no emitted context carries the C-class record,
and the seen-set grows by exactly the 2 M-class identifiers — the filtered
C-class identifier is NOT added to the seen-set, so that record is
re-examined (and re-filtered) on the next call. -/
theorem cycle_example_amended
    (st : MonitorState) (a b c : FlareData) (cta ctb ctc : String)
    (now : Nat) (nowStr : String) (fmtTime : String → String)
    (consoleOk fileOk : Bool) (log : List LogEntry)
    (hta : a.classType = some cta) (haM : headIs cta 'M' = true)
    (htb : b.classType = some ctb) (hbM : headIs ctb 'M' = true)
    (htc : c.classType = some ctc) (hcC : headIs ctc 'C' = true)
    (hba : b.flrID ≠ a.flrID) (hca : c.flrID ≠ a.flrID) (hcb : c.flrID ≠ b.flrID)
    (hsa : a.flrID ∉ st.seen_flares) (hsb : b.flrID ∉ st.seen_flares)
    (hsc : c.flrID ∉ st.seen_flares) :
    (systemRunCycle st (some [a, b, c]) now nowStr fmtTime consoleOk fileOk log).2.2 = 2 ∧
    (systemRunCycle st (some [a, b, c]) now nowStr fmtTime consoleOk fileOk log).2.1.length =
      log.length + 2 ∧
    (∀ ctx, ctx ∈ (monitorExecute st (some [a, b, c]) now nowStr).2 →
      ctx.flare.flare_id ≠ c.flrID) ∧
    (systemRunCycle st (some [a, b, c]) now nowStr fmtTime consoleOk fileOk log).1.seen_flares =
      b.flrID :: a.flrID :: st.seen_flares ∧
    c.flrID ∉ (systemRunCycle st (some [a, b, c]) now nowStr fmtTime
      consoleOk fileOk log).1.seen_flares := by
  have hsiga : significantCode (a.classType.getD "") = true := by
    rw [hta]
    simp [significantCode, haM]
  have hsigb : significantCode (b.classType.getD "") = true := by
    rw [htb]
    simp [significantCode, hbM]
  have hsigc : ¬(significantCode (c.classType.getD "") = true) := by
    rw [htc]
    simp only [Option.getD_some, significantCode]
    rw [headIs_elim hcC (by decide : 'C' ≠ 'M'),
      headIs_elim hcC (by decide : 'C' ≠ 'X')]
    simp
  have hbmem : b.flrID ∉ (a.flrID :: st.seen_flares) := by
    intro hmem
    rcases List.mem_cons.mp hmem with he | hm
    · exact hba he
    · exact hsb hm
  have hcmem : c.flrID ∉ (b.flrID :: a.flrID :: st.seen_flares) := by
    intro hmem
    rcases List.mem_cons.mp hmem with he | hmem2
    · exact hcb he
    · rcases List.mem_cons.mp hmem2 with he2 | hm
      · exact hca he2
      · exact hsc hm
  have hstep1 : detectStep (st.seen_flares, []) a =
      (a.flrID :: st.seen_flares, [parseFlare a]) := by
    unfold detectStep
    rw [if_neg hsa, if_pos hsiga]
    rfl
  have hstep2 : detectStep (a.flrID :: st.seen_flares, [parseFlare a]) b =
      (b.flrID :: a.flrID :: st.seen_flares, [parseFlare a, parseFlare b]) := by
    unfold detectStep
    rw [if_neg hbmem, if_pos hsigb]
    rfl
  have hstep3 : detectStep (b.flrID :: a.flrID :: st.seen_flares,
      [parseFlare a, parseFlare b]) c =
      (b.flrID :: a.flrID :: st.seen_flares, [parseFlare a, parseFlare b]) := by
    unfold detectStep
    rw [if_neg hcmem, if_neg hsigc]
  have hdet : detectNewFlares st [a, b, c] now =
      (⟨b.flrID :: a.flrID :: st.seen_flares, some now⟩,
       [parseFlare a, parseFlare b]) := by
    unfold detectNewFlares
    simp only [List.foldl_cons, List.foldl_nil, hstep1, hstep2, hstep3]
  have hmon2 : (monitorExecute st (some [a, b, c]) now nowStr).2 =
      [{ flare := parseFlare a, timestamp := nowStr },
       { flare := parseFlare b, timestamp := nowStr }] := by
    unfold monitorExecute fetchRecentFlares
    simp only [Option.getD_some, hdet]
    rfl
  have hmon1 : (monitorExecute st (some [a, b, c]) now nowStr).1 =
      ⟨b.flrID :: a.flrID :: st.seen_flares, some now⟩ := by
    unfold monitorExecute fetchRecentFlares
    simp only [Option.getD_some, hdet]
  refine ⟨?_, ?_, ?_, ?_, ?_⟩
  · rw [systemRunCycle_eval, hmon2]
    simp
  · rw [systemRunCycle_eval, hmon2]
    simp [List.length_append]
  · rw [hmon2]
    intro ctx hctx
    rcases List.mem_cons.mp hctx with rfl | h2
    · exact fun h => hca h.symm
    · rcases List.mem_cons.mp h2 with rfl | h3
      · exact fun h => hcb h.symm
      · exact absurd h3 (List.not_mem_nil _)
  · rw [systemRunCycle_eval, hmon1]
  · rw [systemRunCycle_eval, hmon1]
    exact hcmem

theorem cycle_example_amended_witness :
    (systemRunCycle ⟨[], none⟩ (some [fdM1, fdM2, fdC1]) 0 "" id true true []).2.2 = 2 ∧
    (systemRunCycle ⟨[], none⟩ (some [fdM1, fdM2, fdC1]) 0 "" id true true []).2.1.length =
      ([] : List LogEntry).length + 2 ∧
    (∀ ctx, ctx ∈ (monitorExecute ⟨[], none⟩ (some [fdM1, fdM2, fdC1]) 0 "").2 →
      ctx.flare.flare_id ≠ fdC1.flrID) ∧
    (systemRunCycle ⟨[], none⟩ (some [fdM1, fdM2, fdC1]) 0 "" id true true []).1.seen_flares =
      fdM2.flrID :: fdM1.flrID :: (⟨[], none⟩ : MonitorState).seen_flares ∧
    fdC1.flrID ∉ (systemRunCycle ⟨[], none⟩ (some [fdM1, fdM2, fdC1]) 0 ""
      id true true []).1.seen_flares :=
  cycle_example_amended ⟨[], none⟩ fdM1 fdM2 fdC1 "M1.5" "M2.0" "C3.0" 0 "" id true true []
    rfl (by decide) rfl (by decide) rfl (by decide)
    (by decide) (by decide) (by decide) (by decide) (by decide) (by decide)

end SolarFlareMonitor
